import Mathlib

/-!
Shallow embedding of the polynomial fit-and-evaluate workflow of
`hands-on/010_underfitting_overfitting_lazy.ipynb`: the target function,
the noisy data generator, the polynomial model evaluator `fit_func`,
the fit engine `compute_params` (delegating to the external solver
`scipy.optimize.curve_fit`), and the mean-squared-error evaluator
`compute_errors`.

The Python floats are modelled as elements of an arbitrary field
(instantiated with `ℝ` in the theorems); numpy's shared random stream is
modelled as an explicit state `Rng` (a stream of raw draws and a cursor)
threaded through the generator; Python exceptions are modelled with
`Except String`.
-/

open scoped BigOperators

namespace Notebook

variable {α : Type} [Field α]

/-- The ground-truth quadratic `target_function(x) = -(x + 1.0)*(x - 5.0)`. -/
def target_function (x : α) : α := -(x + 1) * (x - 5)

/-- State of numpy's process-wide random stream: an infinite stream of raw
draws and the current position.  A uniform draw reads the stream as a unit
sample in `[0, 1)`, a normal draw reads it as a standard-normal sample;
each consumed draw advances the cursor. -/
structure Rng (α : Type) where
  stream : ℕ → α
  pos : ℕ

/-- `np.random.uniform(low, high, (n,))`: returns `low + (high - low) * u`
for `n` successive unit draws `u`, advancing the stream by `n`. -/
def np_random_uniform (low high : α) (n : ℕ) (rng : Rng α) : List α × Rng α :=
  ((List.range n).map (fun k => low + (high - low) * rng.stream (rng.pos + k)),
   ⟨rng.stream, rng.pos + n⟩)

/-- `np.random.normal(loc, scale, (n,))`: returns `loc + scale * g` for `n`
successive standard-normal draws `g`, advancing the stream by `n`. -/
def np_random_normal (loc scale : α) (n : ℕ) (rng : Rng α) : List α × Rng α :=
  ((List.range n).map (fun k => loc + scale * rng.stream (rng.pos + k)),
   ⟨rng.stream, rng.pos + n⟩)

/-- `generate_noisy_data(func, x_min, x_max, noise, nr_points)`:
`x = np.random.uniform(x_min, x_max, (nr_points,))`,
`y = func(x) + np.random.normal(0.0, noise, x.shape)`, returns `(x, y)`.
The elementwise numpy arithmetic is rendered with `List.zip`/`List.map`. -/
def generate_noisy_data (func : α → α) (x_min x_max noise : α) (nr_points : ℕ)
    (rng : Rng α) : (List α × List α) × Rng α :=
  let xr := np_random_uniform x_min x_max nr_points rng
  let nr := np_random_normal 0 noise nr_points xr.2
  ((xr.1, (xr.1.zip nr.1).map (fun q => func q.1 + q.2)), nr.2)

/-- `fit_func(x, *params)`:
`x_facts = [x**i for i in range(len(params))]`;
`return sum(param*x_fact for param, x_fact in zip(params, x_facts))`.
The variadic `*params` is rendered as a list; Python's empty `sum` is `0`. -/
def fit_func (x : α) (params : List α) : α :=
  let x_facts := (List.range params.length).map (fun i => x ^ i)
  ((params.zip x_facts).map (fun q => q.1 * q.2)).sum

/-- Modelled from the spec: the external nonlinear least-squares solver
`scipy.optimize.curve_fit`, which is not part of this repository.  Per the
spec it takes the model function, the x- and y-samples and an initial
parameter guess, returns a best-fit vector together with an ignored
covariance estimate, and must signal failure distinctly: an
under-determined problem (more parameters than data points) is rejected,
and a failure of the numerical optimization to converge is an error.  The
outcome of the numerical optimization itself is abstracted by the oracle
`opt`. -/
def curve_fit
    (opt : (α → List α → α) → List α → List α → List α → Except String (List α))
    (f : α → List α → α) (xs ys p0 : List α) :
    Except String (List α × List (List α)) :=
  if xs.length < p0.length then
    .error "TypeError: The number of func parameters must not exceed the number of data points"
  else
    (opt f xs ys p0).map (fun p => (p, []))

/-- `compute_params(fit_func, xs, ys, degree)`:
`p0 = [1.0]*(degree + 1)`; `p_opt, _ = curve_fit(fit_func, xs, ys, p0)`;
`return p_opt`.  No exception handling: any solver failure propagates. -/
def compute_params
    (opt : (α → List α → α) → List α → List α → List α → Except String (List α))
    (f : α → List α → α) (xs ys : List α) (degree : ℕ) :
    Except String (List α) :=
  let p0 := List.replicate (degree + 1) (1 : α)
  (curve_fit opt f xs ys p0).map Prod.fst

/-- `compute_errors(func, xs, ys, params)`:
`return sum((y - func(x, *params))**2 for x, y in zip(xs, ys))/len(xs)`.
Python's `zip` truncates to the shorter sequence; division by
`len(xs) = 0` raises `ZeroDivisionError`. -/
def compute_errors (func : α → List α → α) (xs ys : List α) (params : List α) :
    Except String α :=
  if xs.length = 0 then
    .error "ZeroDivisionError: division by zero"
  else
    .ok ((((xs.zip ys).map (fun q => (q.2 - func q.1 params) ^ 2)).sum) / xs.length)

/-- Summing `p_i * g i` over the zip of a list with `(range p.length).map g`
is the `Finset.range` sum of `p.getD i 0 * g i`. -/
lemma sum_zip_range_map (p : List ℝ) (g : ℕ → ℝ) :
    ((p.zip ((List.range p.length).map g)).map (fun q => q.1 * q.2)).sum
      = ∑ i ∈ Finset.range p.length, p.getD i 0 * g i := by
  induction p generalizing g with
  | nil => simp
  | cons a p ih =>
    rw [List.length_cons, List.range_succ_eq_map]
    simp only [List.map_cons, List.zip_cons_cons, List.map_map, List.sum_cons]
    rw [Finset.sum_range_succ']
    simp only [List.getD_cons_succ, List.getD_cons_zero]
    have hc : (g ∘ Nat.succ) = fun i => g (i + 1) := rfl
    rw [hc, ih (fun i => g (i + 1))]
    ring

/-- The sum of `f x y` over the zip of two lists is the `Finset.range` sum
over the first `min` length indices. -/
lemma sum_map_zip (f : ℝ → ℝ → ℝ) : ∀ xs ys : List ℝ,
    ((xs.zip ys).map (fun q => f q.1 q.2)).sum
      = ∑ i ∈ Finset.range (min xs.length ys.length),
          f (xs.getD i 0) (ys.getD i 0) := by
  intro xs
  induction xs with
  | nil => intro ys; simp
  | cons x xs ih =>
    intro ys
    cases ys with
    | nil => simp
    | cons y ys =>
      simp only [List.zip_cons_cons, List.map_cons, List.sum_cons,
        List.length_cons, Nat.succ_min_succ]
      rw [Finset.sum_range_succ']
      simp only [List.getD_cons_succ, List.getD_cons_zero, ih ys]
      ring

end Notebook

namespace Claims

open Notebook

/-- C1: for every non-empty coefficient vector `p` of length `d + 1` and
every real scalar `x`, `fit_func` returns the degree-`d` polynomial value
`∑ i ≤ d, p_i * x^i`. -/
theorem fit_func_eval (x : ℝ) (p : List ℝ) (hp : p ≠ []) :
    fit_func x p = ∑ i ∈ Finset.range p.length, p.getD i 0 * x ^ i := by
  simpa [fit_func] using sum_zip_range_map p (fun i => x ^ i)

/-- Witness for C1 at `x = 2`, `p = [3, 4]`. -/
theorem fit_func_eval_witness :
    ([3, 4] : List ℝ) ≠ [] ∧
      fit_func 2 [3, 4]
        = ∑ i ∈ Finset.range ([3, 4] : List ℝ).length,
            ([3, 4] : List ℝ).getD i 0 * (2 : ℝ) ^ i :=
  ⟨by simp, fit_func_eval 2 [3, 4] (by simp)⟩

/-- C7: a length-1 coefficient vector yields a constant function:
`fit_func x [c] = c` for all `x`. -/
theorem fit_func_constant (x c : ℝ) : fit_func x [c] = c := by
  simp [fit_func, List.range_succ]

/-- C4 counterexample: `fit_func` called with an empty coefficient vector
does not signal a failure; Python's empty `sum` makes it return the
numeric value `0` (here at `x = 3`). -/
theorem fit_func_empty_at_three : fit_func (3 : ℝ) [] = 0 := by
  simp [fit_func]

/-- C4 amended: for every `x`, `fit_func` with an empty coefficient vector
returns `0` (the empty sum); it signals no failure at all. -/
theorem fit_func_empty (x : ℝ) : fit_func x [] = 0 := by
  simp [fit_func]

/-- C2: on equal-length non-empty samples, `compute_errors` returns exactly
the mean squared error `(1/n) * ∑ (y_i - fit_func x_i p)^2`. -/
theorem compute_errors_mse (p xs ys : List ℝ) (hlen : xs.length = ys.length)
    (hpos : 0 < xs.length) :
    compute_errors fit_func xs ys p
      = .ok ((1 / (xs.length : ℝ)) *
          ∑ i ∈ Finset.range xs.length,
            (ys.getD i 0 - fit_func (xs.getD i 0) p) ^ 2) := by
  have hS : ((xs.zip ys).map (fun q => (q.2 - fit_func q.1 p) ^ 2)).sum
      = ∑ i ∈ Finset.range xs.length,
          (ys.getD i 0 - fit_func (xs.getD i 0) p) ^ 2 := by
    have h2 := sum_map_zip (fun a b => (b - fit_func a p) ^ 2) xs ys
    rw [← hlen, min_self] at h2
    simpa using h2
  simp only [compute_errors, if_neg (Nat.pos_iff_ne_zero.mp hpos)]
  rw [hS, one_div, inv_mul_eq_div]

/-- Witness for C2 at `xs = [0]`, `ys = [1]`, `p = [2]`. -/
theorem compute_errors_mse_witness :
    ([0] : List ℝ).length = ([1] : List ℝ).length ∧
      0 < ([0] : List ℝ).length ∧
      compute_errors fit_func [0] [1] [2]
        = .ok ((1 / ((([0] : List ℝ).length : ℕ) : ℝ)) *
            ∑ i ∈ Finset.range ([0] : List ℝ).length,
              (([1] : List ℝ).getD i 0
                - fit_func (([0] : List ℝ).getD i 0) [2]) ^ 2) :=
  ⟨rfl, by simp, compute_errors_mse [2] [0] [1] rfl (by simp)⟩

/-- C3: for any optimizer outcome, `compute_params` on an under-determined
problem (`degree + 1 > sample count`) returns an error, and any error of
the external solver propagates unchanged to the caller — never a silent
coefficient vector. -/
theorem compute_params_fit_failure
    (opt : (ℝ → List ℝ → ℝ) → List ℝ → List ℝ → List ℝ → Except String (List ℝ))
    (f : ℝ → List ℝ → ℝ) (xs ys : List ℝ) (degree : ℕ) :
    (xs.length < degree + 1 →
      ∃ e, compute_params opt f xs ys degree = .error e) ∧
    (∀ e, curve_fit opt f xs ys (List.replicate (degree + 1) (1 : ℝ)) = .error e →
      compute_params opt f xs ys degree = .error e) := by
  constructor
  · intro h
    exact ⟨"TypeError: The number of func parameters must not exceed the number of data points",
      by simp [compute_params, curve_fit, List.length_replicate, h, Except.map]⟩
  · intro e he
    simp [compute_params, he, Except.map]

/-- Witness for C3: a single sample point and requested degree 1. -/
theorem compute_params_fit_failure_witness :
    ([1] : List ℝ).length < 1 + 1 ∧
      ∃ e, compute_params (fun _ _ _ _ => .ok []) fit_func ([1] : List ℝ) [2] 1
        = .error e :=
  ⟨by norm_num,
    (compute_params_fit_failure (fun _ _ _ _ => .ok []) fit_func
      ([1] : List ℝ) [2] 1).1 (by norm_num)⟩

/-- C5 counterexample: calling the Data Generator with the invalid sample
count `nr_points = 0` is not rejected: it returns the empty Sample Set
without any failure. -/
theorem generate_no_reject_zero_points :
    (generate_noisy_data target_function 0 1 ((2 : ℝ) / 10) 0
        ⟨fun _ => 0, 0⟩).1 = (([] : List ℝ), ([] : List ℝ)) := by
  simp [generate_noisy_data, np_random_uniform, np_random_normal]

/-- C5 amended: the core performs no input validation at all: even for
invalid parameters (`x_min > x_max` or a zero sample count) the Data
Generator returns a Sample Set of the requested length instead of
failing. -/
theorem generate_noisy_data_no_validation (func : ℝ → ℝ)
    (x_min x_max noise : ℝ) (n : ℕ) (rng : Rng ℝ)
    (h : x_max < x_min ∨ n = 0) :
    (generate_noisy_data func x_min x_max noise n rng).1.1.length = n ∧
    (generate_noisy_data func x_min x_max noise n rng).1.2.length = n := by
  simp [generate_noisy_data, np_random_uniform, np_random_normal]

/-- Witness for C5 amended: `x_min = 1 > x_max = 0`, three points. -/
theorem generate_noisy_data_no_validation_witness :
    ((0 : ℝ) < 1 ∨ (3 : ℕ) = 0) ∧
      ((generate_noisy_data target_function 1 0 ((2 : ℝ) / 10) 3
          ⟨fun _ => 0, 0⟩).1.1.length = 3 ∧
        (generate_noisy_data target_function 1 0 ((2 : ℝ) / 10) 3
          ⟨fun _ => 0, 0⟩).1.2.length = 3) :=
  ⟨Or.inl (by norm_num),
    generate_noisy_data_no_validation target_function 1 0 ((2 : ℝ) / 10) 3
      ⟨fun _ => 0, 0⟩ (Or.inl (by norm_num))⟩

/-- C6: on well-formed inputs (non-empty coefficient vector, equal-length
non-empty samples) `compute_errors` applied to `fit_func` returns a value
and never fails. -/
theorem evaluation_total (p xs ys : List ℝ) (hp : p ≠ [])
    (hlen : xs.length = ys.length) (hpos : 0 < xs.length) :
    ∃ v : ℝ, compute_errors fit_func xs ys p = .ok v := by
  refine ⟨((xs.zip ys).map (fun q => (q.2 - fit_func q.1 p) ^ 2)).sum
    / xs.length, ?_⟩
  simp [compute_errors, hpos.ne']

/-- Witness for C6 at `xs = [1]`, `ys = [2]`, `p = [3]`. -/
theorem evaluation_total_witness :
    ([3] : List ℝ) ≠ [] ∧ ([1] : List ℝ).length = ([2] : List ℝ).length ∧
      0 < ([1] : List ℝ).length ∧
      ∃ v : ℝ, compute_errors fit_func [1] [2] [3] = .ok v :=
  ⟨by simp, rfl, by simp, evaluation_total [3] [1] [2] (by simp) rfl (by simp)⟩

/-- C8: the Data Generator is deterministic: two invocations with identical
parameters from the same random-stream state (as fixed by the process-wide
seed) produce identical Sample Sets. -/
theorem generate_noisy_data_deterministic (func : ℝ → ℝ)
    (x_min x_max noise : ℝ) (n : ℕ) (rng₁ rng₂ : Rng ℝ) (h : rng₁ = rng₂) :
    generate_noisy_data func x_min x_max noise n rng₁
      = generate_noisy_data func x_min x_max noise n rng₂ := by
  rw [h]

/-- Witness for C8 at the notebook's parameters. -/
theorem generate_noisy_data_deterministic_witness :
    generate_noisy_data target_function 0 1 ((2 : ℝ) / 10) 20 ⟨fun _ => 0, 0⟩
      = generate_noisy_data target_function 0 1 ((2 : ℝ) / 10) 20
          ⟨fun _ => 0, 0⟩ :=
  generate_noisy_data_deterministic target_function 0 1 ((2 : ℝ) / 10) 20
    ⟨fun _ => 0, 0⟩ ⟨fun _ => 0, 0⟩ rfl

/-- C9: every Sample Set produced by the Data Generator has x- and y-value
sequences of equal length, namely the requested `nr_points`. -/
theorem generate_noisy_data_lengths (func : ℝ → ℝ)
    (x_min x_max noise : ℝ) (n : ℕ) (rng : Rng ℝ) :
    (generate_noisy_data func x_min x_max noise n rng).1.1.length = n ∧
    (generate_noisy_data func x_min x_max noise n rng).1.2.length = n := by
  simp [generate_noisy_data, np_random_uniform, np_random_normal]

/-- C10 counterexample: mismatched lengths can signal an error after all:
with an empty `xs` (and non-empty `ys`) `compute_errors` raises
`ZeroDivisionError` from the division by `len(xs)`. -/
theorem compute_errors_empty_xs :
    compute_errors fit_func ([] : List ℝ) [1] [0]
      = .error "ZeroDivisionError: division by zero" := by
  simp [compute_errors]

/-- C10 amended: for non-empty `xs`, `compute_errors` does not check that
the lengths match: it sums the squared residuals of the zip-truncated
pairs yet divides by `len(xs)`, so for `len(xs) > len(ys)` the result can
differ from the mean of the residuals actually summed (at `xs = [1, 2]`,
`ys = [1]`, `p = [0]` it returns `1/2` while that mean is `1`); an empty
`xs` raises `ZeroDivisionError`. -/
theorem compute_errors_truncation (f : ℝ → List ℝ → ℝ) (xs ys p : List ℝ)
    (hx : xs ≠ []) :
    compute_errors f xs ys p
      = .ok (((xs.zip ys).map (fun q => (q.2 - f q.1 p) ^ 2)).sum
          / xs.length) ∧
    compute_errors fit_func ([1, 2] : List ℝ) [1] [0] = .ok (1 / 2) ∧
    ((1 : ℝ) / 2) ≠ ((1 - fit_func (1 : ℝ) [0]) ^ 2) / 1 := by
  refine ⟨?_, ?_, ?_⟩
  · simp [compute_errors, List.length_eq_zero, hx]
  · norm_num [compute_errors, fit_func, List.range_succ]
  · norm_num [fit_func]

/-- Witness for C10 amended at `xs = [5]`, `ys = []`, `p = []`. -/
theorem compute_errors_truncation_witness :
    ([5] : List ℝ) ≠ [] ∧
      (compute_errors fit_func [5] [] []
          = .ok (((([5] : List ℝ).zip ([] : List ℝ)).map
                (fun q => (q.2 - fit_func q.1 ([] : List ℝ)) ^ 2)).sum
              / (([5] : List ℝ).length : ℝ)) ∧
        compute_errors fit_func ([1, 2] : List ℝ) [1] [0] = .ok (1 / 2) ∧
        ((1 : ℝ) / 2) ≠ ((1 - fit_func (1 : ℝ) [0]) ^ 2) / 1) :=
  ⟨by simp, compute_errors_truncation fit_func [5] [] [] (by simp)⟩

end Claims
